import Mathlib

/-!
Shallow embedding of the agribc backend (src/models.py, src/services.py,
src/main.py): the wallet ledger and the contract lifecycle state machine.

Modelling conventions:
* The Supabase tables are association lists inside a `DB` record; a
  `select("*").eq(col, v).execute()` followed by `result.data[0]` is
  `firstWhere` (filter then `head?`), and an `update(...).eq(col, v)` is a
  `map` that rewrites every matching row, exactly as SQL does.
* Python `Decimal` arithmetic is modelled by `ℚ` (exact decimal arithmetic);
  the lossy `float(...)` conversion at the storage boundary is the known
  currency-representation bug flagged in the spec's design notes and is
  abstracted away here.
* External collaborators (the Gemini text provider, the storage upload) are
  modelled by explicit outcome parameters: `providerResponse : Option String`
  (`none` = the provider raised) and `uploadOk : Bool`, plus the strings the
  environment supplies (timestamps, the public URL, fresh row ids).
* A Python function that can raise to its caller is modelled with `Option`:
  `none` is the exception path.
-/

set_option allowUnsafeReducibility true

attribute [local semireducible] Rat.add Rat.sub

namespace AgriBC

/-- A row of the `users` table (models.py `User`, sans timestamps). -/
structure UserRow where
  id : String
  name : String
  role : String
deriving DecidableEq, Repr

/-- A row of the `listings` table (models.py `Listing`, sans timestamps). -/
structure ListingRow where
  id : String
  farmer_id : String
  crop_type : String
  quantity : Nat
  delivery_date : String
  expected_price : ℚ
  status : String
deriving DecidableEq, Repr

/-- A row of the `proposals` table (models.py `Proposal`, sans timestamps). -/
structure ProposalRow where
  id : String
  listing_id : String
  buyer_id : String
  price : ℚ
  payment_terms : Option String
  status : String
deriving DecidableEq, Repr

/-- A row of the `contracts` table (models.py `Contract`, sans timestamps).
`signed_by` is stored serialized in the store; modelled directly as a list. -/
structure ContractRow where
  id : String
  listing_id : String
  farmer_id : String
  buyer_id : String
  contract_text : String
  pdf_url : String
  status : String
  signed_by : List String
deriving DecidableEq, Repr

/-- The persistent store: the five tables the services read and write.
Wallets are `(user_id, balance)` pairs. -/
structure DB where
  users : List UserRow
  wallets : List (String × ℚ)
  listings : List ListingRow
  proposals : List ProposalRow
  contracts : List ContractRow
deriving DecidableEq, Repr

/-- `select("*").eq(...)` followed by `result.data[0] if result.data else None`. -/
def firstWhere {α : Type _} (q : α → Bool) (xs : List α) : Option α :=
  (xs.filter q).head?

/-- Balance lookup on a wallet table: first row for the user, its balance. -/
def wallet_lookup (ws : List (String × ℚ)) (uid : String) : Option ℚ :=
  (firstWhere (fun p => p.1 == uid) ws).map (·.2)

/-- `SupabaseService.get_wallet`: first wallet row for the user, its balance. -/
def get_wallet (db : DB) (uid : String) : Option ℚ :=
  wallet_lookup db.wallets uid

/-- `SupabaseService.get_user`. -/
def get_user (db : DB) (uid : String) : Option UserRow :=
  firstWhere (fun u => u.id == uid) db.users

/-- `SupabaseService.get_proposal`. -/
def get_proposal (db : DB) (pid : String) : Option ProposalRow :=
  firstWhere (fun p => p.id == pid) db.proposals

/-- `SupabaseService.get_contract`. -/
def get_contract (db : DB) (cid : String) : Option ContractRow :=
  firstWhere (fun c => c.id == cid) db.contracts

/-- `table("wallets").update({"balance": b}).eq("user_id", uid)`:
rewrites the balance of every row whose key matches. -/
def updateWalletBalance (ws : List (String × ℚ)) (uid : String) (b : ℚ) :
    List (String × ℚ) :=
  ws.map (fun p => if p.1 == uid then (p.1, b) else p)

/-- `SupabaseService.create_user_profile`: insert the user row and
auto-create a wallet with balance 0. -/
def create_user_profile (db : DB) (uid name role : String) : DB :=
  { db with
    users := db.users ++ [{ id := uid, name := name, role := role }],
    wallets := db.wallets ++ [(uid, 0)] }

/-- `SupabaseService.add_funds`: if no wallet exists, insert one seeded with
`amount`; else write back `balance + amount`. -/
def add_funds (db : DB) (uid : String) (amount : ℚ) : DB :=
  match get_wallet db uid with
  | none => { db with wallets := db.wallets ++ [(uid, amount)] }
  | some b => { db with wallets := updateWalletBalance db.wallets uid (b + amount) }

/-- `SupabaseService.transfer_funds`. Faithful to the source's control flow:
the whole body is wrapped in `try/except → return False`, so
* a missing sender wallet raises on `from_wallet["balance"]` before any
  write: the store is unchanged and the call reports `false`;
* a shortfall (`from_balance < 0`) returns `false` before any write;
* otherwise the sender row is written, and only then is the receiver
  loaded — a missing receiver raises on `to_wallet["balance"]` AFTER the
  debit, so the debited store is kept and the call reports `false`;
* only after both writes does it report `true`. -/
def transfer_funds (db : DB) (from_uid to_uid : String) (amount : ℚ) :
    DB × Bool :=
  match get_wallet db from_uid with
  | none => (db, false)
  | some fb =>
    let fb' := fb - amount
    if fb' < 0 then (db, false)
    else
      let db1 : DB := { db with wallets := updateWalletBalance db.wallets from_uid fb' }
      match get_wallet db1 to_uid with
      | none => (db1, false)
      | some tb =>
        ({ db1 with wallets := updateWalletBalance db1.wallets to_uid (tb + amount) }, true)

/-- `table("listings").insert(...)` via `SupabaseService.create_listing`;
`status` defaults to `"open"` in the store (spec data model). The fresh row
id is supplied by the store. -/
def create_listing (db : DB) (newId farmer_id crop_type : String)
    (quantity : Nat) (delivery_date : String) (expected_price : ℚ) : DB :=
  { db with
    listings := db.listings ++
      [{ id := newId, farmer_id := farmer_id, crop_type := crop_type,
         quantity := quantity, delivery_date := delivery_date,
         expected_price := expected_price, status := "open" }] }

/-- `SupabaseService.create_proposal`; `status` defaults to `"pending"`. -/
def create_proposal (db : DB) (newId buyer_id listing_id : String)
    (price : ℚ) (payment_terms : Option String) : DB :=
  { db with
    proposals := db.proposals ++
      [{ id := newId, listing_id := listing_id, buyer_id := buyer_id,
         price := price, payment_terms := payment_terms, status := "pending" }] }

/-- `SupabaseService.update_proposal_status`. -/
def update_proposal_status (db : DB) (pid status : String) : DB :=
  { db with
    proposals := db.proposals.map
      (fun p => if p.id == pid then { p with status := status } else p) }

/-- `SupabaseService.create_contract`: insert the row; `status` defaults to
`"drafted"` and `signed_by` to the empty set (spec data model: created with
status `drafted` and an empty signer set). -/
def create_contract (db : DB) (newId listing_id farmer_id buyer_id : String)
    (contract_text pdf_url : String) : DB × ContractRow :=
  let c : ContractRow :=
    { id := newId, listing_id := listing_id, farmer_id := farmer_id,
      buyer_id := buyer_id, contract_text := contract_text,
      pdf_url := pdf_url, status := "drafted", signed_by := [] }
  ({ db with contracts := db.contracts ++ [c] }, c)

/-- `SupabaseService.sign_contract`. A missing contract raises on
`contract["signed_by"]` (`none` here, surfaced by the route as HTTP 400).
Otherwise: append the user to the signer set if not already present,
recompute `status` from the signer-set length alone (`"signed"` iff it is 2,
else `"drafted"`), and write both fields back to every row with this id.
Returns the updated row. -/
def sign_contract (db : DB) (cid uid : String) : Option (DB × ContractRow) :=
  match get_contract db cid with
  | none => none
  | some c =>
    let signed_by := if uid ∈ c.signed_by then c.signed_by else c.signed_by ++ [uid]
    let status := if signed_by.length == 2 then "signed" else "drafted"
    let contracts' := db.contracts.map
      (fun x => if x.id == cid then { x with signed_by := signed_by, status := status } else x)
    some ({ db with contracts := contracts' },
          { c with signed_by := signed_by, status := status })

/-- `SupabaseService.upload_file`: on upload success return the storage
public URL; on any storage exception return the synthetic placeholder URL
built from the current timestamp. The upload outcome and the
environment-supplied strings are explicit parameters. -/
def upload_file (uploadOk : Bool) (timestamp publicUrl : String) : String :=
  if uploadOk then publicUrl
  else "https://placeholder.com/contract_" ++ timestamp ++ ".pdf"

/-- `GeminiService._fallback_contract`: the deterministic template, populated
with the farmer/buyer/listing/proposal fields. `nowDate`/`nowId` stand for
the two `datetime.now()` renderings. `payment_terms` falls back to
`"Payment on successful delivery"` via `.get`, as in the source. -/
def fallback_contract (nowDate nowId : String) (farmer buyer : UserRow)
    (listing : ListingRow) (proposal : ProposalRow) : String :=
  "\n        CROP PURCHASE CONTRACT\n        \n        Contract Date: " ++
  nowDate ++ "\n        Contract ID: CRP-" ++ nowId ++
  "\n        \n        PARTIES TO THE CONTRACT:\n        \n        SELLER (FARMER):\n        Name: " ++
  farmer.name ++
  "\n        Role: Agricultural Producer/Seller\n        \n        BUYER:\n        Name: " ++
  buyer.name ++
  "\n        Role: Purchaser\n        \n        CROP PURCHASE DETAILS:\n        \n        1. CROP SPECIFICATION:\n           - Crop Type: " ++
  listing.crop_type ++ "\n           - Quantity: " ++ toString listing.quantity ++
  " units\n           - Quality: As per standard market grade\n        \n        2. DELIVERY TERMS:\n           - Delivery Date: " ++
  listing.delivery_date ++
  "\n           - Delivery Location: To be mutually agreed\n        \n        3. PRICING & PAYMENT:\n           - Total Contract Value: ₹" ++
  toString proposal.price ++ "\n           - Payment Terms: " ++
  proposal.payment_terms.getD "Payment on successful delivery" ++
  "\n        \n        4. TERMS & CONDITIONS:\n           - The seller agrees to deliver the specified quantity of crop\n           - The buyer agrees to accept delivery and make payment as agreed\n           - Both parties agree to the terms mentioned above\n        \n        SIGNATURES:\n        \n        Seller (Farmer): ________________    Date: ___________\n        " ++
  farmer.name ++ "\n        \n        Buyer: ________________             Date: ___________\n        " ++
  buyer.name ++ "\n        \n        This contract is binding upon both parties.\n        "

/-- `GeminiService.generate_contract`: call the provider inside
`try/except`; on success return its text, on any provider error fall back to
the deterministic template with the same four records. Total by
construction: the provider call never raises to the caller. -/
def gemini_generate_contract (providerResponse : Option String)
    (nowDate nowId : String) (farmer buyer : UserRow)
    (listing : ListingRow) (proposal : ProposalRow) : String :=
  match providerResponse with
  | some text => text
  | none => fallback_contract nowDate nowId farmer buyer listing proposal

/-- `WalletService.process_contract_payment` (settlement): re-verify that the
contract exists and is exactly `"signed"`; look up the FIRST proposal whose
`listing_id` matches the contract's listing; transfer the price from buyer to
farmer; on transfer success write `status := "completed"`. Returns the
success boolean, never raises. -/
def process_contract_payment (db : DB) (cid : String) : DB × Bool :=
  match get_contract db cid with
  | none => (db, false)
  | some c =>
    if c.status ≠ "signed" then (db, false)
    else
      match firstWhere (fun p => p.listing_id == c.listing_id) db.proposals with
      | none => (db, false)
      | some p =>
        let res := transfer_funds db c.buyer_id c.farmer_id p.price
        if res.2 then
          let contracts' := res.1.contracts.map
            (fun x => if x.id == cid then { x with status := "completed" } else x)
          ({ res.1 with contracts := contracts' }, true)
        else (res.1, false)

/-- The `POST /contracts/{id}/sign` route (main.py `sign_contract`): sign,
then — only when the returned row's status is exactly `"signed"` — trigger
settlement, with the outcome folded into the message. `none` is the
HTTP 400 path (missing contract). -/
def sign_route (db : DB) (cid uid : String) : Option (DB × ContractRow × String) :=
  match sign_contract db cid uid with
  | none => none
  | some (db1, c) =>
    if c.status == "signed" then
      let res := process_contract_payment db1 cid
      some (res.1, c,
        if res.2 then "Contract signed and payment processed"
        else "Contract signed but payment failed")
    else some (db1, c, "Contract signed, waiting for other party")

/-- The `POST /contracts/generate` route (main.py `generate_contract`):
fetch proposal, listing, farmer and buyer; generate the contract text (with
provider fallback); render and upload the artifact (with placeholder
fallback); persist the contract row. `none` is the 404/400 path (missing
proposal or listing, or a missing user record — then the prompt's
`farmer_data['name']` subscript raises before the provider try block).
`some` corresponds to the `success=True` API response carrying the row. -/
def generate_route (db : DB) (proposal_id : String)
    (providerResponse : Option String) (uploadOk : Bool)
    (nowDate nowId timestamp publicUrl newContractId : String) :
    Option (DB × ContractRow) :=
  match get_proposal db proposal_id with
  | none => none
  | some proposal =>
    match firstWhere (fun l => l.id == proposal.listing_id) db.listings with
    | none => none
    | some listing =>
      match get_user db listing.farmer_id, get_user db proposal.buyer_id with
      | some farmer, some buyer =>
        let text := gemini_generate_contract providerResponse nowDate nowId
          farmer buyer listing proposal
        let url := upload_file uploadOk timestamp publicUrl
        some (create_contract db newContractId listing.id listing.farmer_id
          proposal.buyer_id text url)
      | _, _ => none

/-- One observable state transition of the system: the mutating HTTP routes
of main.py, with their request validation (pydantic `gt=0` bounds) as
hypotheses and the external oracles as parameters. -/
inductive Step : DB → DB → Prop
  | createUser (db : DB) (uid name role : String)
      (hrole : role = "farmer" ∨ role = "buyer") :
      Step db (create_user_profile db uid name role)
  | addFunds (db : DB) (uid : String) (amount : ℚ) (hpos : 0 < amount) :
      Step db (add_funds db uid amount)
  | createListing (db : DB) (newId farmer_id crop_type : String)
      (quantity : Nat) (delivery_date : String) (expected_price : ℚ)
      (hq : 0 < quantity) (hp : 0 < expected_price) :
      Step db (create_listing db newId farmer_id crop_type quantity
        delivery_date expected_price)
  | createProposal (db : DB) (newId buyer_id listing_id : String)
      (price : ℚ) (terms : Option String) (hp : 0 < price) :
      Step db (create_proposal db newId buyer_id listing_id price terms)
  | acceptProposal (db : DB) (pid : String) :
      Step db (update_proposal_status db pid "accepted")
  | generate (db db' : DB) (proposal_id : String)
      (providerResponse : Option String) (uploadOk : Bool)
      (nowDate nowId timestamp publicUrl newContractId : String)
      (c : ContractRow)
      (h : generate_route db proposal_id providerResponse uploadOk nowDate
        nowId timestamp publicUrl newContractId = some (db', c)) :
      Step db db'
  | sign (db db' : DB) (cid uid : String) (c : ContractRow) (msg : String)
      (h : sign_route db cid uid = some (db', c, msg)) :
      Step db db'

/-- The empty store. -/
def DB.empty : DB := { users := [], wallets := [], listings := [], proposals := [], contracts := [] }

/-- States reachable from the empty store by the mutating routes. -/
def Reachable (db : DB) : Prop :=
  Relation.ReflTransGen Step DB.empty db

/-! ### A concrete execution trace

One farmer, one buyer with 500 in the wallet, one listing, one accepted-price
proposal at 200, one generated contract, then the two signatures. The stores
below are the successive states; the step proofs later check each one against
the route definitions by evaluation. -/

def traceFarmer : UserRow := ⟨"F", "Fred", "farmer"⟩

def traceBuyer : UserRow := ⟨"B", "Bob", "buyer"⟩

def traceListing : ListingRow := ⟨"L1", "F", "wheat", 10, "2026-01-01", 200, "open"⟩

def traceProposal : ProposalRow := ⟨"P1", "L1", "B", 200, none, "pending"⟩

def traceContractDrafted : ContractRow := ⟨"C1", "L1", "F", "B", "TEXT", "URL", "drafted", []⟩

def dbTrace1 : DB := create_user_profile DB.empty "F" "Fred" "farmer"

def dbTrace2 : DB := create_user_profile dbTrace1 "B" "Bob" "buyer"

def dbTrace3 : DB := add_funds dbTrace2 "B" 500

def dbTrace4 : DB := create_listing dbTrace3 "L1" "F" "wheat" 10 "2026-01-01" 200

def dbTrace5 : DB := create_proposal dbTrace4 "P1" "B" "L1" 200 none

/-- After the generate route (provider ok, upload ok). -/
def dbTrace6 : DB :=
  ⟨[traceFarmer, traceBuyer], [("F", 0), ("B", 500)], [traceListing],
   [traceProposal], [traceContractDrafted]⟩

/-- After the farmer signs: one signature, still drafted. -/
def dbTrace7 : DB :=
  ⟨[traceFarmer, traceBuyer], [("F", 0), ("B", 500)], [traceListing],
   [traceProposal], [⟨"C1", "L1", "F", "B", "TEXT", "URL", "drafted", ["F"]⟩]⟩

/-- After the buyer signs: settlement ran, 200 moved from B to F, contract
completed with both signatures. -/
def dbTrace8 : DB :=
  ⟨[traceFarmer, traceBuyer], [("F", 200), ("B", 300)], [traceListing],
   [traceProposal], [⟨"C1", "L1", "F", "B", "TEXT", "URL", "completed", ["F", "B"]⟩]⟩

/-- After the buyer signs AGAIN on the completed contract: the sign route
reset the status to signed and settlement ran a second time, moving another
200 from B to F. -/
def dbTrace9 : DB :=
  ⟨[traceFarmer, traceBuyer], [("F", 400), ("B", 100)], [traceListing],
   [traceProposal], [⟨"C1", "L1", "F", "B", "TEXT", "URL", "completed", ["F", "B"]⟩]⟩

/-- A store holding only a sender wallet: the receiver is missing. -/
def dbNoReceiver : DB := ⟨[], [("A", 100)], [], [], []⟩

/-! ### Lookup lemmas -/

theorem firstWhere_nil {α : Type _} (q : α → Bool) : firstWhere q ([] : List α) = none := rfl

theorem firstWhere_pred {α : Type _} {q : α → Bool} {xs : List α} {x : α}
    (h : firstWhere q xs = some x) : q x = true := by
  unfold firstWhere at h
  cases hfl : xs.filter q with
  | nil => rw [hfl] at h; exact absurd h (by simp)
  | cons y ys =>
    rw [hfl] at h
    have hy : y = x := by simpa using h
    have : y ∈ xs.filter q := by rw [hfl]; exact List.mem_cons_self y ys
    exact hy ▸ (List.mem_filter.mp this).2

theorem firstWhere_map_pres {α : Type _} {q : α → Bool} {f : α → α}
    (hf : ∀ x, q (f x) = q x) (xs : List α) :
    firstWhere q (xs.map f) = (firstWhere q xs).map f := by
  unfold firstWhere
  rw [List.filter_map]
  have : (q ∘ f) = q := funext hf
  rw [this, List.head?_map]

theorem firstWhere_append {α : Type _} (q : α → Bool) (xs ys : List α) :
    firstWhere q (xs ++ ys) =
      match firstWhere q xs with
      | some x => some x
      | none => firstWhere q ys := by
  unfold firstWhere
  rw [List.filter_append]
  cases hfl : xs.filter q with
  | nil => simp
  | cons z zs => simp

theorem wallet_lookup_update_other (ws : List (String × ℚ)) (uid uid' : String)
    (b : ℚ) (h : uid' ≠ uid) :
    wallet_lookup (updateWalletBalance ws uid b) uid' = wallet_lookup ws uid' := by
  unfold wallet_lookup updateWalletBalance
  have hmap := firstWhere_map_pres (q := fun p : String × ℚ => p.1 == uid')
    (f := fun p : String × ℚ => if p.1 == uid then (p.1, b) else p)
    (fun p => by dsimp only; split <;> rfl) ws
  rw [hmap]
  cases hq : firstWhere (fun p => p.1 == uid') ws with
  | none => simp
  | some p0 =>
    have hp0 : p0.1 = uid' := by simpa using firstWhere_pred hq
    simp [hp0, h]

theorem wallet_lookup_update_self (ws : List (String × ℚ)) (uid : String)
    (b0 b : ℚ) (h : wallet_lookup ws uid = some b0) :
    wallet_lookup (updateWalletBalance ws uid b) uid = some b := by
  unfold wallet_lookup updateWalletBalance
  unfold wallet_lookup at h
  have hmap := firstWhere_map_pres (q := fun p : String × ℚ => p.1 == uid)
    (f := fun p : String × ℚ => if p.1 == uid then (p.1, b) else p)
    (fun p => by dsimp only; split <;> rfl) ws
  rw [hmap]
  cases hq : firstWhere (fun p => p.1 == uid) ws with
  | none => rw [hq] at h; exact absurd h (by simp)
  | some p0 =>
    have hp0 : p0.1 = uid := by simpa using firstWhere_pred hq
    simp [hp0]

theorem wallet_lookup_append_self (ws : List (String × ℚ)) (uid : String)
    (b : ℚ) (h : wallet_lookup ws uid = none) :
    wallet_lookup (ws ++ [(uid, b)]) uid = some b := by
  unfold wallet_lookup at h ⊢
  rw [firstWhere_append]
  have hq : firstWhere (fun p => p.1 == uid) ws = none := by
    cases hq : firstWhere (fun p => p.1 == uid) ws with
    | none => rfl
    | some p0 => rw [hq] at h; exact absurd h (by simp)
  rw [hq]
  simp [firstWhere]

theorem wallet_lookup_append_other (ws : List (String × ℚ)) (uid uid' : String)
    (b : ℚ) (h : uid' ≠ uid) :
    wallet_lookup (ws ++ [(uid, b)]) uid' = wallet_lookup ws uid' := by
  unfold wallet_lookup
  rw [firstWhere_append]
  cases hq : firstWhere (fun p => p.1 == uid') ws with
  | none => simp [firstWhere, Ne.symm h]
  | some p0 => simp

/-! ### Frame lemmas for `transfer_funds` -/

theorem transfer_funds_contracts (db : DB) (f t : String) (a : ℚ) :
    ((transfer_funds db f t a).1).contracts = db.contracts := by
  unfold transfer_funds
  cases h : get_wallet db f with
  | none => rfl
  | some fb =>
    simp only
    split
    · rfl
    · cases h2 : get_wallet { db with wallets := updateWalletBalance db.wallets f (fb - a) } t <;> simp

theorem transfer_funds_proposals (db : DB) (f t : String) (a : ℚ) :
    ((transfer_funds db f t a).1).proposals = db.proposals := by
  unfold transfer_funds
  cases h : get_wallet db f with
  | none => rfl
  | some fb =>
    simp only
    split
    · rfl
    · cases h2 : get_wallet { db with wallets := updateWalletBalance db.wallets f (fb - a) } t <;> simp

theorem get_wallet_ext (db db' : DB) (h : db.wallets = db'.wallets) (uid : String) :
    get_wallet db uid = get_wallet db' uid := by
  unfold get_wallet
  rw [h]

theorem get_contract_ext (db db' : DB) (h : db.contracts = db'.contracts) (cid : String) :
    get_contract db cid = get_contract db' cid := by
  unfold get_contract
  rw [h]

theorem contract_lookup_update (cs : List ContractRow) (cid : String)
    (g : ContractRow → ContractRow) (hg : ∀ x, (g x).id = x.id)
    (c : ContractRow) (h : firstWhere (fun x => x.id == cid) cs = some c) :
    firstWhere (fun x => x.id == cid)
      (cs.map (fun x => if x.id == cid then g x else x)) = some (g c) := by
  have hmap := firstWhere_map_pres (q := fun x : ContractRow => x.id == cid)
    (f := fun x : ContractRow => if x.id == cid then g x else x)
    (fun x => by
      dsimp only
      split
      · rw [hg x]
      · rfl) cs
  rw [hmap, h]
  have hc : c.id = cid := by simpa using firstWhere_pred h
  simp [hc]

/-- `get_contract` after an `update(...).eq("id", cid)` write of an
id-preserving row function. -/
theorem get_contract_map_update (db : DB) (cid : String)
    (g : ContractRow → ContractRow) (hg : ∀ x, (g x).id = x.id)
    (c : ContractRow) (h : get_contract db cid = some c) :
    get_contract { db with contracts := db.contracts.map (fun x => if x.id == cid then g x else x) } cid = some (g c) :=
  contract_lookup_update db.contracts cid g hg c h

/-! ### C1 -/

/-- C1: for every pair of existing wallets and every transfer amount `a`
strictly greater than the sender's balance `bf`, `transfer_funds` leaves both
the sender's and the receiver's balances unchanged and reports failure — no
partial debit or credit occurs. -/
theorem transfer_insufficient_unchanged (db : DB) (f t : String) (a bf bt : ℚ)
    (hf : get_wallet db f = some bf) (ht : get_wallet db t = some bt)
    (hlt : bf < a) :
    (transfer_funds db f t a).2 = false ∧
    get_wallet (transfer_funds db f t a).1 f = some bf ∧
    get_wallet (transfer_funds db f t a).1 t = some bt := by
  have hneg : bf - a < 0 := by linarith
  unfold transfer_funds
  rw [hf]
  dsimp only
  rw [if_pos hneg]
  exact ⟨rfl, hf, ht⟩

/-- Witness for C1 at a concrete store: sender balance 5, receiver balance 7,
amount 10. -/
theorem transfer_insufficient_unchanged_witness :
    (transfer_funds ⟨[], [("A", 5), ("B", 7)], [], [], []⟩ "A" "B" 10).2 = false ∧
    get_wallet (transfer_funds ⟨[], [("A", 5), ("B", 7)], [], [], []⟩ "A" "B" 10).1 "A" = some 5 ∧
    get_wallet (transfer_funds ⟨[], [("A", 5), ("B", 7)], [], [], []⟩ "A" "B" 10).1 "B" = some 7 :=
  transfer_insufficient_unchanged _ "A" "B" 10 5 7 (by decide) (by decide) (by norm_num)

/-! ### C2 -/

/-- C2: for every pair of (distinct) existing wallets and every amount not
exceeding the sender's balance, `transfer_funds` debits the sender by exactly
the amount, credits the receiver by exactly the amount, keeps the sum of the
two balances invariant, and reports success. -/
theorem transfer_sufficient_moves_amount (db : DB) (f t : String) (a bf bt : ℚ)
    (hft : f ≠ t) (hf : get_wallet db f = some bf) (ht : get_wallet db t = some bt)
    (hle : a ≤ bf) :
    (transfer_funds db f t a).2 = true ∧
    get_wallet (transfer_funds db f t a).1 f = some (bf - a) ∧
    get_wallet (transfer_funds db f t a).1 t = some (bt + a) ∧
    (bf - a) + (bt + a) = bf + bt := by
  have hnneg : ¬ (bf - a < 0) := by linarith
  have ht1 : wallet_lookup (updateWalletBalance db.wallets f (bf - a)) t = some bt := by
    rw [wallet_lookup_update_other db.wallets f t _ (Ne.symm hft)]; exact ht
  have hf1 : wallet_lookup (updateWalletBalance db.wallets f (bf - a)) f = some (bf - a) :=
    wallet_lookup_update_self db.wallets f bf _ hf
  unfold transfer_funds
  rw [hf]
  dsimp only
  rw [if_neg hnneg]
  have ht1' : get_wallet { db with wallets := updateWalletBalance db.wallets f (bf - a) } t =
      some bt := ht1
  rw [ht1']
  dsimp only
  refine ⟨rfl, ?_, ?_, by ring⟩
  · show wallet_lookup
        (updateWalletBalance (updateWalletBalance db.wallets f (bf - a)) t (bt + a)) f =
      some (bf - a)
    rw [wallet_lookup_update_other _ t f _ hft]
    exact hf1
  · show wallet_lookup
        (updateWalletBalance (updateWalletBalance db.wallets f (bf - a)) t (bt + a)) t =
      some (bt + a)
    exact wallet_lookup_update_self _ t bt _ ht1

/-- Witness for C2 at a concrete store: sender balance 5, receiver balance 7,
amount 3. -/
theorem transfer_sufficient_moves_amount_witness :
    (transfer_funds ⟨[], [("A", 5), ("B", 7)], [], [], []⟩ "A" "B" 3).2 = true ∧
    get_wallet (transfer_funds ⟨[], [("A", 5), ("B", 7)], [], [], []⟩ "A" "B" 3).1 "A" = some (5 - 3) ∧
    get_wallet (transfer_funds ⟨[], [("A", 5), ("B", 7)], [], [], []⟩ "A" "B" 3).1 "B" = some (7 + 3) ∧
    ((5 : ℚ) - 3) + (7 + 3) = 5 + 7 :=
  transfer_sufficient_moves_amount _ "A" "B" 3 5 7 (by decide) (by decide) (by decide) (by norm_num)

/-! ### C7 -/

/-- C7: for every user and every amount > 0, `add_funds` increases that
user's wallet balance by exactly the amount (creating a wallet whose balance
equals the amount when none exists — the `getD 0` default makes the two
cases one statement) and changes no other wallet. -/
theorem add_funds_spec (db : DB) (uid : String) (a : ℚ) (hpos : 0 < a) :
    get_wallet (add_funds db uid a) uid = some ((get_wallet db uid).getD 0 + a) ∧
    ∀ uid', uid' ≠ uid → get_wallet (add_funds db uid a) uid' = get_wallet db uid' := by
  unfold add_funds
  cases h : get_wallet db uid with
  | none =>
    dsimp only
    refine ⟨?_, fun uid' h' => ?_⟩
    · show wallet_lookup (db.wallets ++ [(uid, a)]) uid = some (Option.getD none 0 + a)
      rw [wallet_lookup_append_self db.wallets uid a h]
      simp
    · show wallet_lookup (db.wallets ++ [(uid, a)]) uid' = wallet_lookup db.wallets uid'
      exact wallet_lookup_append_other db.wallets uid uid' a h'
  | some b =>
    dsimp only
    refine ⟨?_, fun uid' h' => ?_⟩
    · show wallet_lookup (updateWalletBalance db.wallets uid (b + a)) uid =
        some (Option.getD (some b) 0 + a)
      rw [wallet_lookup_update_self db.wallets uid b _ h]
      simp
    · show wallet_lookup (updateWalletBalance db.wallets uid (b + a)) uid' =
        wallet_lookup db.wallets uid'
      exact wallet_lookup_update_other db.wallets uid uid' _ h'

/-- Witness for C7: crediting 4 to an existing balance 5 yields 9 and leaves
the other wallet at 7. -/
theorem add_funds_spec_witness :
    get_wallet (add_funds ⟨[], [("A", 5), ("B", 7)], [], [], []⟩ "A" 4) "A" =
      some ((get_wallet ⟨[], [("A", 5), ("B", 7)], [], [], []⟩ "A").getD 0 + 4) ∧
    ∀ uid', uid' ≠ "A" →
      get_wallet (add_funds ⟨[], [("A", 5), ("B", 7)], [], [], []⟩ "A" 4) uid' =
        get_wallet ⟨[], [("A", 5), ("B", 7)], [], [], []⟩ uid' :=
  add_funds_spec _ "A" 4 (by norm_num)

/-! ### C5 -/

/-- C5: settlement re-verifies its preconditions. If the contract is absent
or its status is not exactly "signed", it returns failure and the whole
store — wallets and contract included — is unchanged. On transfer failure it
returns failure and the contract row is untouched (still "signed"). The
result reports success only when the transfer reported success, and then the
contract advances to "completed". (`process_contract_payment` is a total
function returning a boolean: no exception path exists.) -/
theorem process_contract_payment_spec (db : DB) (cid : String) :
    ((∀ c, get_contract db cid = some c → c.status ≠ "signed") →
       process_contract_payment db cid = (db, false)) ∧
    (∀ c p, get_contract db cid = some c → c.status = "signed" →
       firstWhere (fun q => q.listing_id == c.listing_id) db.proposals = some p →
       (transfer_funds db c.buyer_id c.farmer_id p.price).2 = false →
       process_contract_payment db cid =
         ((transfer_funds db c.buyer_id c.farmer_id p.price).1, false) ∧
       get_contract (process_contract_payment db cid).1 cid = some c) ∧
    ((process_contract_payment db cid).2 = true →
       ∃ c p, get_contract db cid = some c ∧ c.status = "signed" ∧
         firstWhere (fun q => q.listing_id == c.listing_id) db.proposals = some p ∧
         (transfer_funds db c.buyer_id c.farmer_id p.price).2 = true ∧
         get_contract (process_contract_payment db cid).1 cid =
           some { c with status := "completed" }) := by
  refine ⟨?_, ?_, ?_⟩
  · intro h
    unfold process_contract_payment
    cases hc : get_contract db cid with
    | none => rfl
    | some c =>
      dsimp only
      rw [if_pos (h c hc)]
  · intro c p hc hst hp htr
    unfold process_contract_payment
    rw [hc]
    dsimp only
    rw [if_neg (by simp [hst])]
    rw [hp]
    dsimp only
    rw [htr, if_neg (by simp)]
    refine ⟨rfl, ?_⟩
    rw [get_contract_ext _ db (transfer_funds_contracts db c.buyer_id c.farmer_id p.price) cid]
    exact hc
  · intro htrue
    cases hc : get_contract db cid with
    | none =>
      have heq : process_contract_payment db cid = (db, false) := by
        unfold process_contract_payment
        rw [hc]
      rw [heq] at htrue
      exact absurd htrue (by simp)
    | some c =>
      by_cases hst : c.status = "signed"
      case neg =>
        have heq : process_contract_payment db cid = (db, false) := by
          unfold process_contract_payment
          rw [hc]
          dsimp only
          rw [if_pos hst]
        rw [heq] at htrue
        exact absurd htrue (by simp)
      case pos =>
      cases hp : firstWhere (fun q => q.listing_id == c.listing_id) db.proposals with
      | none =>
        have heq : process_contract_payment db cid = (db, false) := by
          unfold process_contract_payment
          rw [hc]
          dsimp only
          rw [if_neg (by simp [hst]), hp]
        rw [heq] at htrue
        exact absurd htrue (by simp)
      | some p =>
        by_cases htr : (transfer_funds db c.buyer_id c.farmer_id p.price).2 = true
        · have hproc : process_contract_payment db cid =
              ({ (transfer_funds db c.buyer_id c.farmer_id p.price).1 with
                 contracts := (transfer_funds db c.buyer_id c.farmer_id p.price).1.contracts.map (fun x => if x.id == cid then { x with status := "completed" } else x) }, true) := by
            unfold process_contract_payment
            rw [hc]
            dsimp only
            rw [if_neg (by simp [hst]), hp]
            dsimp only
            rw [htr, if_pos rfl]
          refine ⟨c, p, rfl, hst, hp, htr, ?_⟩
          rw [hproc]
          have hres : get_contract (transfer_funds db c.buyer_id c.farmer_id p.price).1 cid =
              some c := by
            rw [get_contract_ext _ db
              (transfer_funds_contracts db c.buyer_id c.farmer_id p.price) cid]
            exact hc
          exact get_contract_map_update (transfer_funds db c.buyer_id c.farmer_id p.price).1 cid
            (fun x => { x with status := "completed" }) (fun x => rfl) c hres
        · have heq : process_contract_payment db cid =
              ((transfer_funds db c.buyer_id c.farmer_id p.price).1, false) := by
            unfold process_contract_payment
            rw [hc]
            dsimp only
            rw [if_neg (by simp [hst]), hp]
            dsimp only
            rw [if_neg htr]
          rw [heq] at htrue
          exact absurd htrue (by simp)

/-- Witness for C5 at a concrete store: the trace contract is "completed",
not "signed", so settlement refuses and changes nothing. -/
theorem process_contract_payment_spec_witness :
    process_contract_payment dbTrace8 "C1" = (dbTrace8, false) :=
  (process_contract_payment_spec dbTrace8 "C1").1 (by
    intro c hc
    have hrow : get_contract dbTrace8 "C1" =
        some (⟨"C1", "L1", "F", "B", "TEXT", "URL", "completed", ["F", "B"]⟩ : ContractRow) := rfl
    rw [hrow] at hc
    injection hc with h
    rw [← h]
    decide)

/-! ### C3 -/

/-- C3 (amended): after any sign operation the updated (and persisted)
contract's status is "signed" iff its signer set has exactly 2 entries; and
settlement newly advances a contract to "completed" only from status
"signed" and only together with a reported-successful transfer. (The
original per-state iff fails at completed states, which keep their 2
signers.) -/
theorem sign_status_iff_and_completed_guard (db db1 : DB) (cid uid : String)
    (c' : ContractRow) (hs : sign_contract db cid uid = some (db1, c')) :
    ((c'.status = "signed" ↔ c'.signed_by.length = 2) ∧
      get_contract db1 cid = some c') ∧
    (∀ (dz : DB) (cz : String) (c₀ c₁ : ContractRow),
      get_contract dz cz = some c₀ → c₀.status ≠ "completed" →
      get_contract (process_contract_payment dz cz).1 cz = some c₁ →
      c₁.status = "completed" →
      c₀.status = "signed" ∧ (process_contract_payment dz cz).2 = true) := by
  constructor
  · unfold sign_contract at hs
    cases hcon : get_contract db cid with
    | none => rw [hcon] at hs; exact absurd hs (by simp)
    | some c =>
      rw [hcon] at hs
      dsimp only at hs
      injection hs with h
      have h1 := congrArg Prod.fst h
      have h2 := congrArg Prod.snd h
      dsimp only at h1 h2
      subst h1
      subst h2
      constructor
      · dsimp only
        constructor
        · intro hsig
          by_cases hlen : (if uid ∈ c.signed_by then c.signed_by else c.signed_by ++ [uid]).length = 2
          · exact hlen
          · rw [if_neg (by simpa using hlen)] at hsig
            exact absurd hsig (by decide)
        · intro hlen
          rw [if_pos (by simpa using hlen)]
      · exact get_contract_map_update db cid
          (fun x => { x with
            signed_by := if uid ∈ c.signed_by then c.signed_by else c.signed_by ++ [uid],
            status := if (if uid ∈ c.signed_by then c.signed_by else c.signed_by ++ [uid]).length == 2 then "signed" else "drafted" })
          (fun x => rfl) c hcon
  · intro dz cz c₀ c₁ hc₀ hne h1 hcomp
    by_cases hst : c₀.status = "signed"
    case neg =>
      have heq : process_contract_payment dz cz = (dz, false) := by
        unfold process_contract_payment
        rw [hc₀]
        dsimp only
        rw [if_pos hst]
      rw [heq] at h1
      dsimp only at h1
      rw [hc₀] at h1
      injection h1 with h
      exact absurd (h ▸ hcomp) hne
    case pos =>
    refine ⟨hst, ?_⟩
    cases hp : firstWhere (fun q => q.listing_id == c₀.listing_id) dz.proposals with
    | none =>
      have heq : process_contract_payment dz cz = (dz, false) := by
        unfold process_contract_payment
        rw [hc₀]
        dsimp only
        rw [if_neg (by simp [hst]), hp]
      rw [heq] at h1
      dsimp only at h1
      rw [hc₀] at h1
      injection h1 with h
      exact absurd (h ▸ hcomp) hne
    | some p =>
      by_cases htr : (transfer_funds dz c₀.buyer_id c₀.farmer_id p.price).2 = true
      · have hproc : process_contract_payment dz cz =
            ({ (transfer_funds dz c₀.buyer_id c₀.farmer_id p.price).1 with
               contracts := (transfer_funds dz c₀.buyer_id c₀.farmer_id p.price).1.contracts.map (fun x => if x.id == cz then { x with status := "completed" } else x) }, true) := by
          unfold process_contract_payment
          rw [hc₀]
          dsimp only
          rw [if_neg (by simp [hst]), hp]
          dsimp only
          rw [htr, if_pos rfl]
        rw [hproc]
      · have heq : process_contract_payment dz cz =
            ((transfer_funds dz c₀.buyer_id c₀.farmer_id p.price).1, false) := by
          unfold process_contract_payment
          rw [hc₀]
          dsimp only
          rw [if_neg (by simp [hst]), hp]
          dsimp only
          rw [if_neg htr]
        rw [heq] at h1
        dsimp only at h1
        rw [get_contract_ext _ dz
          (transfer_funds_contracts dz c₀.buyer_id c₀.farmer_id p.price) cz, hc₀] at h1
        injection h1 with h
        exact absurd (h ▸ hcomp) hne

/-- Witness for the amended C3 at the trace: the farmer's (first) signature
leaves the persisted contract drafted with one signer. -/
theorem sign_status_iff_witness :
    (((⟨"C1", "L1", "F", "B", "TEXT", "URL", "drafted", ["F"]⟩ : ContractRow).status = "signed" ↔
      (⟨"C1", "L1", "F", "B", "TEXT", "URL", "drafted", ["F"]⟩ : ContractRow).signed_by.length = 2) ∧
     get_contract dbTrace7 "C1" =
       some ⟨"C1", "L1", "F", "B", "TEXT", "URL", "drafted", ["F"]⟩) :=
  (sign_status_iff_and_completed_guard dbTrace6 dbTrace7 "C1" "F"
    ⟨"C1", "L1", "F", "B", "TEXT", "URL", "drafted", ["F"]⟩ (by decide)).1

/-- C3 is false as stated: a state reachable through the real routes (two
users, funding, listing, proposal, generation, two signatures) holds a
contract whose signer set has exactly 2 distinct entries while its status is
"completed", not "signed". -/
theorem reachable_completed_two_signers :
    ∃ db : DB, Reachable db ∧ ∃ c : ContractRow,
      get_contract db "C1" = some c ∧ c.signed_by.length = 2 ∧
      c.signed_by.Nodup ∧ c.status ≠ "signed" := by
  refine ⟨dbTrace8, ?_,
    ⟨"C1", "L1", "F", "B", "TEXT", "URL", "completed", ["F", "B"]⟩,
    by decide, by decide, by decide, by decide⟩
  have h01 : Step DB.empty dbTrace1 :=
    Step.createUser DB.empty "F" "Fred" "farmer" (Or.inl rfl)
  have h12 : Step dbTrace1 dbTrace2 :=
    Step.createUser dbTrace1 "B" "Bob" "buyer" (Or.inr rfl)
  have h23 : Step dbTrace2 dbTrace3 :=
    Step.addFunds dbTrace2 "B" 500 (by norm_num)
  have h34 : Step dbTrace3 dbTrace4 :=
    Step.createListing dbTrace3 "L1" "F" "wheat" 10 "2026-01-01" 200
      (by norm_num) (by norm_num)
  have h45 : Step dbTrace4 dbTrace5 :=
    Step.createProposal dbTrace4 "P1" "B" "L1" 200 none (by norm_num)
  have h56 : Step dbTrace5 dbTrace6 :=
    Step.generate dbTrace5 dbTrace6 "P1" (some "TEXT") true "D" "I" "TS" "URL" "C1"
      traceContractDrafted (by decide)
  have h67 : Step dbTrace6 dbTrace7 :=
    Step.sign dbTrace6 dbTrace7 "C1" "F"
      ⟨"C1", "L1", "F", "B", "TEXT", "URL", "drafted", ["F"]⟩
      "Contract signed, waiting for other party" (by decide)
  have h78 : Step dbTrace7 dbTrace8 :=
    Step.sign dbTrace7 dbTrace8 "C1" "B"
      ⟨"C1", "L1", "F", "B", "TEXT", "URL", "signed", ["F", "B"]⟩
      "Contract signed and payment processed" (by decide)
  exact Relation.ReflTransGen.head h01 (Relation.ReflTransGen.head h12
    (Relation.ReflTransGen.head h23 (Relation.ReflTransGen.head h34
      (Relation.ReflTransGen.head h45 (Relation.ReflTransGen.head h56
        (Relation.ReflTransGen.head h67 (Relation.ReflTransGen.single h78)))))))

/-! ### C10 -/

/-- C10: on a "completed" contract with both signatures, a further sign call
by a user already in the signer set leaves the signer set unchanged but —
because `sign_contract` recomputes the status solely from the signer-set
length — resets the status to "signed"; the sign route then sees "signed" and
runs settlement again, so a second transfer of the price from buyer to
farmer occurs (here: it succeeds because the buyer still covers the price). -/
theorem resign_completed_retriggers_payment (db : DB) (cid uid : String)
    (c : ContractRow) (p : ProposalRow) (bb fb : ℚ)
    (hc : get_contract db cid = some c)
    (hst : c.status = "completed")
    (hlen : c.signed_by.length = 2)
    (hmem : uid ∈ c.signed_by)
    (hp : firstWhere (fun q => q.listing_id == c.listing_id) db.proposals = some p)
    (hb : get_wallet db c.buyer_id = some bb)
    (hf : get_wallet db c.farmer_id = some fb)
    (hbf : c.buyer_id ≠ c.farmer_id)
    (hcover : p.price ≤ bb) :
    ∃ db2 : DB,
      sign_route db cid uid =
        some (db2, { c with status := "signed" }, "Contract signed and payment processed") ∧
      get_wallet db2 c.buyer_id = some (bb - p.price) ∧
      get_wallet db2 c.farmer_id = some (fb + p.price) ∧
      get_contract db2 cid = some { c with status := "completed" } := by
  have hsc : sign_contract db cid uid =
      some ({ db with contracts := db.contracts.map (fun x => if x.id == cid then { x with signed_by := c.signed_by, status := "signed" } else x) },
            { c with status := "signed" }) := by
    unfold sign_contract
    rw [hc]
    dsimp only
    rw [if_pos hmem, if_pos (show (c.signed_by.length == 2) = true by simp [hlen])]
  set db1 : DB := { db with contracts := db.contracts.map (fun x => if x.id == cid then { x with signed_by := c.signed_by, status := "signed" } else x) } with hdb1
  have hc1 : get_contract db1 cid = some { c with status := "signed" } :=
    get_contract_map_update db cid
      (fun x => { x with signed_by := c.signed_by, status := "signed" })
      (fun x => rfl) c hc
  have hb1 : get_wallet db1 c.buyer_id = some bb := hb
  have hnneg : ¬ (bb - p.price < 0) := by linarith
  have hfb1 : wallet_lookup (updateWalletBalance db1.wallets c.buyer_id (bb - p.price))
      c.farmer_id = some fb := by
    rw [wallet_lookup_update_other db1.wallets c.buyer_id c.farmer_id _ (Ne.symm hbf)]
    exact hf
  have htr : transfer_funds db1 c.buyer_id c.farmer_id p.price =
      ({ db1 with wallets := updateWalletBalance (updateWalletBalance db1.wallets c.buyer_id (bb - p.price)) c.farmer_id (fb + p.price) }, true) := by
    unfold transfer_funds
    rw [hb1]
    dsimp only
    rw [if_neg hnneg]
    have : get_wallet { db1 with wallets := updateWalletBalance db1.wallets c.buyer_id (bb - p.price) } c.farmer_id = some fb := hfb1
    rw [this]
  set dbT : DB := { db1 with wallets := updateWalletBalance (updateWalletBalance db1.wallets c.buyer_id (bb - p.price)) c.farmer_id (fb + p.price) } with hdbT
  have hproc : process_contract_payment db1 cid =
      ({ dbT with contracts := dbT.contracts.map (fun x => if x.id == cid then { x with status := "completed" } else x) }, true) := by
    unfold process_contract_payment
    rw [hc1]
    dsimp only
    rw [if_neg (by simp)]
    rw [show firstWhere (fun q => q.listing_id == ({ c with status := "signed" } : ContractRow).listing_id) db1.proposals = some p from hp]
    dsimp only
    rw [show transfer_funds db1 ({ c with status := "signed" } : ContractRow).buyer_id ({ c with status := "signed" } : ContractRow).farmer_id p.price = (dbT, true) from htr]
    rw [if_pos rfl]
  have hs2 : (process_contract_payment db1 cid).2 = true := by rw [hproc]
  have hroute : sign_route db cid uid =
      some ((process_contract_payment db1 cid).1,
        { c with status := "signed" }, "Contract signed and payment processed") := by
    unfold sign_route
    rw [hsc]
    dsimp only
    rw [if_pos (show ((({ c with status := "signed" } : ContractRow).status == "signed") = true) by exact rfl)]
    rw [hs2]
    rw [if_pos rfl]
  refine ⟨(process_contract_payment db1 cid).1, hroute, ?_, ?_, ?_⟩
  · rw [hproc]
    show wallet_lookup (updateWalletBalance (updateWalletBalance db1.wallets c.buyer_id (bb - p.price)) c.farmer_id (fb + p.price)) c.buyer_id = some (bb - p.price)
    rw [wallet_lookup_update_other _ c.farmer_id c.buyer_id _ hbf]
    exact wallet_lookup_update_self db1.wallets c.buyer_id bb _ hb1
  · rw [hproc]
    show wallet_lookup (updateWalletBalance (updateWalletBalance db1.wallets c.buyer_id (bb - p.price)) c.farmer_id (fb + p.price)) c.farmer_id = some (fb + p.price)
    exact wallet_lookup_update_self _ c.farmer_id fb _ hfb1
  · rw [hproc]
    have hcT : get_contract dbT cid = some ({ c with status := "signed" } : ContractRow) := hc1
    exact get_contract_map_update dbT cid (fun x => { x with status := "completed" })
      (fun x => rfl) ({ c with status := "signed" } : ContractRow) hcT

/-- Witness for C10 at the trace: after completion (F has 200, B has 300),
the buyer signs again; another 200 moves from B to F. -/
theorem resign_completed_retriggers_payment_witness :
    ∃ db2 : DB,
      sign_route dbTrace8 "C1" "B" =
        some (db2,
          { (⟨"C1", "L1", "F", "B", "TEXT", "URL", "completed", ["F", "B"]⟩ : ContractRow) with
            status := "signed" }, "Contract signed and payment processed") ∧
      get_wallet db2 "B" = some (300 - 200) ∧
      get_wallet db2 "F" = some (200 + 200) ∧
      get_contract db2 "C1" =
        some { (⟨"C1", "L1", "F", "B", "TEXT", "URL", "completed", ["F", "B"]⟩ : ContractRow) with
               status := "completed" } :=
  resign_completed_retriggers_payment dbTrace8 "C1" "B"
    ⟨"C1", "L1", "F", "B", "TEXT", "URL", "completed", ["F", "B"]⟩
    ⟨"P1", "L1", "B", 200, none, "pending"⟩ 300 200
    (by decide) (by decide) (by decide) (by decide) (by decide) (by decide)
    (by decide) (by decide) (by norm_num)

/-! ### C4 -/

/-- C4 evaluated at the failing input: the buyer's first sign call completes
the pair and settles (B: 500 → 300, F: 0 → 200, contract completed); the
buyer's second sign call with the SAME user id leaves the signer set
unchanged (idempotence holds) and returns the very same contract row, but it
re-triggers settlement: another 200 moves (B: 300 → 100, F: 200 → 400),
contradicting the claim that a repeated signature never re-triggers
settlement. -/
theorem double_sign_second_invocation_retriggers :
    sign_route dbTrace7 "C1" "B" =
      some (dbTrace8, ⟨"C1", "L1", "F", "B", "TEXT", "URL", "signed", ["F", "B"]⟩,
        "Contract signed and payment processed") ∧
    sign_route dbTrace8 "C1" "B" =
      some (dbTrace9, ⟨"C1", "L1", "F", "B", "TEXT", "URL", "signed", ["F", "B"]⟩,
        "Contract signed and payment processed") ∧
    get_wallet dbTrace8 "B" = some 300 ∧ get_wallet dbTrace9 "B" = some 100 ∧
    get_wallet dbTrace8 "F" = some 200 ∧ get_wallet dbTrace9 "F" = some 400 := by
  exact ⟨by decide, by decide, by decide, by decide, by decide, by decide⟩

/-! ### C6 -/

/-- C6 counterexample: sender "A" holds 100 and covers the amount 50, the
receiver "R" has no wallet. The code raises on the missing receiver AFTER
debiting the sender, the exception is swallowed, and the call reports
failure: no receiver wallet is created or credited (and the sender is left
debited at 50), contradicting the claim that the transfer credits the
receiver by creating its wallet. -/
theorem transfer_missing_receiver_counterexample :
    (transfer_funds dbNoReceiver "A" "R" 50).2 = false ∧
    get_wallet (transfer_funds dbNoReceiver "A" "R" 50).1 "R" = none ∧
    get_wallet (transfer_funds dbNoReceiver "A" "R" 50).1 "A" = some 50 := by
  exact ⟨by decide, by decide, by decide⟩

/-- C6 (amended): when the sender's wallet exists and covers the amount but
the receiver's wallet is absent, the transfer debits the sender, creates and
credits no receiver wallet, and reports failure; and in general success is
reported only when both the debit and the credit mutations completed. -/
theorem transfer_missing_receiver_spec (db : DB) (f t : String) (a bf : ℚ)
    (hf : get_wallet db f = some bf) (hcover : a ≤ bf)
    (ht : get_wallet db t = none) :
    (transfer_funds db f t a).2 = false ∧
    get_wallet (transfer_funds db f t a).1 f = some (bf - a) ∧
    get_wallet (transfer_funds db f t a).1 t = none ∧
    (∀ (dz : DB) (fz tz : String) (az : ℚ), fz ≠ tz →
      (transfer_funds dz fz tz az).2 = true →
      ∃ b1 b2, get_wallet dz fz = some b1 ∧ get_wallet dz tz = some b2 ∧
        get_wallet (transfer_funds dz fz tz az).1 fz = some (b1 - az) ∧
        get_wallet (transfer_funds dz fz tz az).1 tz = some (b2 + az)) := by
  have hft : f ≠ t := by
    intro h
    rw [h, ht] at hf
    exact absurd hf (by simp)
  have hnneg : ¬ (bf - a < 0) := by linarith
  have ht1 : wallet_lookup (updateWalletBalance db.wallets f (bf - a)) t = none := by
    rw [wallet_lookup_update_other db.wallets f t _ (Ne.symm hft)]
    exact ht
  have htr : transfer_funds db f t a =
      ({ db with wallets := updateWalletBalance db.wallets f (bf - a) }, false) := by
    unfold transfer_funds
    rw [hf]
    dsimp only
    rw [if_neg hnneg]
    have : get_wallet { db with wallets := updateWalletBalance db.wallets f (bf - a) } t = none := ht1
    rw [this]
  refine ⟨by rw [htr], ?_, ?_, ?_⟩
  · rw [htr]
    exact wallet_lookup_update_self db.wallets f bf _ hf
  · rw [htr]
    exact ht1
  · intro dz fz tz az hfz htrue
    cases hgz : get_wallet dz fz with
    | none =>
      unfold transfer_funds at htrue
      rw [hgz] at htrue
      exact absurd htrue (by simp)
    | some b1 =>
      by_cases hneg : b1 - az < 0
      · unfold transfer_funds at htrue
        rw [hgz] at htrue
        dsimp only at htrue
        rw [if_pos hneg] at htrue
        exact absurd htrue (by simp)
      · cases hlook : wallet_lookup (updateWalletBalance dz.wallets fz (b1 - az)) tz with
        | none =>
          unfold transfer_funds at htrue
          rw [hgz] at htrue
          dsimp only at htrue
          rw [if_neg hneg] at htrue
          rw [show get_wallet { dz with wallets := updateWalletBalance dz.wallets fz (b1 - az) } tz = none from hlook] at htrue
          exact absurd htrue (by simp)
        | some b2 =>
          have hb2 : get_wallet dz tz = some b2 := by
            rw [wallet_lookup_update_other dz.wallets fz tz _ (Ne.symm hfz)] at hlook
            exact hlook
          have heq : transfer_funds dz fz tz az =
              ({ dz with wallets := updateWalletBalance (updateWalletBalance dz.wallets fz (b1 - az)) tz (b2 + az) }, true) := by
            unfold transfer_funds
            rw [hgz]
            dsimp only
            rw [if_neg hneg]
            rw [show get_wallet { dz with wallets := updateWalletBalance dz.wallets fz (b1 - az) } tz = some b2 from hlook]
          refine ⟨b1, b2, rfl, hb2, ?_, ?_⟩
          · rw [heq]
            show wallet_lookup (updateWalletBalance (updateWalletBalance dz.wallets fz (b1 - az)) tz (b2 + az)) fz = some (b1 - az)
            rw [wallet_lookup_update_other _ tz fz _ hfz]
            exact wallet_lookup_update_self dz.wallets fz b1 _ hgz
          · rw [heq]
            show wallet_lookup (updateWalletBalance (updateWalletBalance dz.wallets fz (b1 - az)) tz (b2 + az)) tz = some (b2 + az)
            exact wallet_lookup_update_self _ tz b2 _ hlook

/-- Witness for the amended C6: sender at 100 covers 50; receiver missing;
the debit happens (100 → 50) and the call fails. -/
theorem transfer_missing_receiver_spec_witness :
    (transfer_funds dbNoReceiver "A" "R" 50).2 = false ∧
    get_wallet (transfer_funds dbNoReceiver "A" "R" 50).1 "A" = some (100 - 50) ∧
    get_wallet (transfer_funds dbNoReceiver "A" "R" 50).1 "R" = none ∧
    (∀ (dz : DB) (fz tz : String) (az : ℚ), fz ≠ tz →
      (transfer_funds dz fz tz az).2 = true →
      ∃ b1 b2, get_wallet dz fz = some b1 ∧ get_wallet dz tz = some b2 ∧
        get_wallet (transfer_funds dz fz tz az).1 fz = some (b1 - az) ∧
        get_wallet (transfer_funds dz fz tz az).1 tz = some (b2 + az)) :=
  transfer_missing_receiver_spec dbNoReceiver "A" "R" 50 100
    (by decide) (by norm_num) (by decide)

/-! ### C8 -/

/-- C8: when the text-generation provider raises (`providerResponse = none`),
the generate route still returns success (`some`, i.e. the 200 response with
`success=True`) and the persisted contract's text equals the deterministic
fallback template populated with the very farmer/buyer/listing/proposal
records the route fetched. (`gemini_generate_contract` is a total function:
the provider call never raises to the caller.) -/
theorem generate_provider_failure_falls_back (db : DB) (pid : String)
    (uploadOk : Bool) (nd ni ts pu ncid : String)
    (proposal : ProposalRow) (listing : ListingRow) (farmer buyer : UserRow)
    (hp : get_proposal db pid = some proposal)
    (hl : firstWhere (fun l => l.id == proposal.listing_id) db.listings = some listing)
    (hf : get_user db listing.farmer_id = some farmer)
    (hb : get_user db proposal.buyer_id = some buyer) :
    ∃ db' c, generate_route db pid none uploadOk nd ni ts pu ncid = some (db', c) ∧
      c.contract_text = fallback_contract nd ni farmer buyer listing proposal ∧
      db'.contracts = db.contracts ++ [c] := by
  unfold generate_route
  rw [hp]
  dsimp only
  rw [hl]
  dsimp only
  rw [hf, hb]
  dsimp only
  exact ⟨_, _, rfl, rfl, rfl⟩

/-- Witness for C8 at the trace store: provider fails, upload succeeds. -/
theorem generate_provider_failure_falls_back_witness :
    ∃ db' c, generate_route dbTrace5 "P1" none true "D" "I" "TS" "URL" "C1" = some (db', c) ∧
      c.contract_text = fallback_contract "D" "I" traceFarmer traceBuyer traceListing traceProposal ∧
      db'.contracts = dbTrace5.contracts ++ [c] :=
  generate_provider_failure_falls_back dbTrace5 "P1" true "D" "I" "TS" "URL" "C1"
    traceProposal traceListing traceFarmer traceBuyer
    (by decide) (by decide) (by decide) (by decide)

/-! ### C9 -/

/-- C9: when the artifact upload fails (`uploadOk = false`), the contract row
is still persisted (appended to the contracts table), its artifact reference
is the synthetic placeholder URL built from the timestamp — not a storage
URL — and the generate route still returns success. -/
theorem generate_upload_failure_placeholder (db : DB) (pid : String)
    (providerResponse : Option String) (nd ni ts pu ncid : String)
    (proposal : ProposalRow) (listing : ListingRow) (farmer buyer : UserRow)
    (hp : get_proposal db pid = some proposal)
    (hl : firstWhere (fun l => l.id == proposal.listing_id) db.listings = some listing)
    (hf : get_user db listing.farmer_id = some farmer)
    (hb : get_user db proposal.buyer_id = some buyer) :
    ∃ db' c, generate_route db pid providerResponse false nd ni ts pu ncid = some (db', c) ∧
      c.pdf_url = "https://placeholder.com/contract_" ++ ts ++ ".pdf" ∧
      db'.contracts = db.contracts ++ [c] := by
  unfold generate_route
  rw [hp]
  dsimp only
  rw [hl]
  dsimp only
  rw [hf, hb]
  dsimp only
  exact ⟨_, _, rfl, rfl, rfl⟩

/-- Witness for C9 at the trace store: provider succeeds, upload fails. -/
theorem generate_upload_failure_placeholder_witness :
    ∃ db' c, generate_route dbTrace5 "P1" (some "TEXT") false "D" "I" "TS" "URL" "C1" = some (db', c) ∧
      c.pdf_url = "https://placeholder.com/contract_" ++ "TS" ++ ".pdf" ∧
      db'.contracts = dbTrace5.contracts ++ [c] :=
  generate_upload_failure_placeholder dbTrace5 "P1" (some "TEXT") "D" "I" "TS" "URL" "C1"
    traceProposal traceListing traceFarmer traceBuyer
    (by decide) (by decide) (by decide) (by decide)

end AgriBC
